import Mathlib

/-!
Shallow embedding of the zone control engine of `tado_aa.py` and proofs of
the specification claims about it.

The source program is a polling loop (`engine`) that, per zone, checks the
internal temperature, the open-window flag, the manual-override ("resume
schedule") timer rule, and the temperature limits, then reconciles the
household HOME/AWAY mode from mobile-device geolocation.  Timers are
threads running `reset_to_schedule`; messages go through the deduplicating
`printm`.
-/

set_option autoImplicit false

namespace TadoAA

/-- Power setting of a zone, the `setting.power` field: `"ON"` or `"OFF"`. -/
inductive Power
  | ON
  | OFF
deriving DecidableEq, Repr

/-- Household presence, the `presence` field of `get_home_state`. -/
inductive Presence
  | HOME
  | AWAY
deriving DecidableEq, Repr

/-- The `mode` argument of `set_zone_overlay`: the code passes the string
`"MANUAL"` when clamping high and the integer literal `0` when clamping
low (the schedule-off sentinel). -/
inductive OverlayMode
  | MANUAL
  | ZERO
deriving DecidableEq, Repr

/-- Structured content of the messages the engine emits through `printm`.
The numeric and name payloads are exactly the data the source interpolates
into the corresponding format strings. -/
inductive Msg
  | openWindowDetected (zoneName : String)
  | done
  | waiting
  | scheduleResume (power : Power) (setTemp : ℚ) (zoneName : String) (zoneId : Nat)
  | clampedHigh (zoneName : String) (setTemp maxTemp : ℚ)
  | clampedLow (zoneName : String) (setTemp minTemp : ℚ)
  | resumedSchedule (zoneId : Nat)
  | activatingHome (devices : String)
  | activatingAway
  | gotLocation
  | interrupted
  | locationUnavailable
  | connectionRetry (text : String)
  | connectionEstablished
  | loginError
deriving DecidableEq, Repr

/-- Remote calls and log emissions performed by the engine, in program order. -/
inductive Action
  | resetZoneOverlay (zoneId : Nat)
  | setOpenWindow (zoneId : Nat)
  | setZoneOverlay (zoneId : Nat) (mode : OverlayMode) (temp : ℚ)
  | setHome
  | setAway
  | notice (m : Msg)
deriving DecidableEq, Repr

/-- State of one entry of the `active_reschedules` dictionary: a thread
running `reset_to_schedule` that is still sleeping (`running`, with the
remaining whole seconds of its single `time.sleep(RESCHEDULE_TIMER)`), or a
thread that has already fired and returned (`finished`).  The source has no
cancellation path: a `running` timer can only count down and fire. -/
inductive TimerEntry
  | running (zoneId : Nat) (remaining : Nat)
  | finished (zoneId : Nat)
deriving DecidableEq, Repr

/-- The `active_reschedules` dictionary: zone name to timer thread, in
insertion order, with unique keys (Python dict semantics). -/
abbrev Registry := List (String × TimerEntry)

/-- Dictionary lookup, `active_reschedules[zone_name]`. -/
def lookupReg : Registry → String → Option TimerEntry
  | [], _ => none
  | (k, v) :: rest, n => if k = n then some v else lookupReg rest n

/-- Model of `Thread.is_alive()` for a timer entry. -/
def entryAlive : TimerEntry → Bool
  | .running _ _ => true
  | .finished _ => false

/-- Model of `zone_name in active_reschedules and active_reschedules[zone_name].is_alive()`. -/
def isAlive (reg : Registry) (n : String) : Bool :=
  match lookupReg reg n with
  | some e => entryAlive e
  | none => false

/-- Dictionary assignment `active_reschedules[zone_name] = thread`:
replace the value at an existing key in place, else append. -/
def insertReg : Registry → String → TimerEntry → Registry
  | [], n, e => [(n, e)]
  | (k, v) :: rest, n, e =>
      if k = n then (n, e) :: rest else (k, v) :: insertReg rest n e

/-- Python dicts have unique keys; this is the structural invariant of the
registry. -/
def nodupKeys (reg : Registry) : Prop :=
  (reg.map Prod.fst).Nodup

instance (reg : Registry) : Decidable (nodupKeys reg) := by
  unfold nodupKeys; infer_instance

/-- Does the character list `p` start the character list `s`? -/
def startsWithChars : List Char → List Char → Bool
  | [], _ => true
  | _ :: _, [] => false
  | a :: as, b :: bs => a = b && startsWithChars as bs

/-- Does the pattern occur anywhere in the character list? -/
def occursIn (pat : List Char) : List Char → Bool
  | [] => startsWithChars pat []
  | c :: rest => startsWithChars pat (c :: rest) || occursIn pat rest

/-- Python `s.find(pat) != -1`: substring occurrence test, used by the
source to classify exception texts and previous messages. -/
def pyFind (s pat : String) : Bool :=
  occursIn pat.data s.data

/-- The module-level configuration constants of `tado_aa.py`. -/
structure Config where
  CHECKING_INTERVAL : ℚ
  ERROR_INTERVAL : ℚ
  MIN_TEMP : ℚ
  MAX_TEMP : ℚ
  MAX_INTERNAL_TEMP : ℚ
  ENABLE_TEMP_LIMIT : Bool
  RESCHEDULE_TIMER : Nat
deriving DecidableEq, Repr

/-- The values assigned in the source's settings block. -/
def srcConfig : Config :=
  { CHECKING_INTERVAL := 30
    ERROR_INTERVAL := 30
    MIN_TEMP := 5
    MAX_TEMP := 25
    MAX_INTERNAL_TEMP := 26
    ENABLE_TEMP_LIMIT := true
    RESCHEDULE_TIMER := 15 * 60 }

/-- One `t.get_state(zone_id)` response together with the open-window
override state of the zone.  `manualControlTermination` records whether the
field is non-`None`; `temperature` is `none` when `setting.temperature` is
`None`.  `openWindowActive` is the zone's open-window override state held
by the remote; the engine code never reads it. -/
structure ZoneState where
  insideTemperature : ℚ
  power : Power
  temperature : Option ℚ
  heatingPowerPct : ℚ
  manualControlTermination : Bool
  openWindowActive : Bool
deriving DecidableEq, Repr

/-- Result of evaluating one zone inside one tick: the actions performed in
order, the registry afterwards, and whether an uncaught exception escaped
(aborting the rest of the tick; in the source the only such spot inside the
zone rules is subscripting `['value']` on a `None` temperature). -/
structure EvalResult where
  acts : List Action
  reg : Registry
  raised : Bool
deriving DecidableEq, Repr

/-- One zone's pass of the `engine` loop body (lines 198-256 of
`tado_aa.py`), evaluated against a single fixed `get_state` response `st`
and open-window flag `owd`.  The four checks are independent `if`
statements in the source, executed in this order; none is an `elif` of
another. -/
def evalZone (cfg : Config) (zid : Nat) (zname : String) (st : ZoneState)
    (owd : Bool) (reg : Registry) : EvalResult :=
  -- check internal temperature
  let a1 : List Action :=
    if st.insideTemperature ≥ cfg.MAX_INTERNAL_TEMP then [Action.resetZoneOverlay zid] else []
  -- automatic open window mode
  let a2 : List Action :=
    if owd then
      [Action.notice (Msg.openWindowDetected zname), Action.setOpenWindow zid,
       Action.notice Msg.done, Action.notice Msg.waiting]
    else []
  -- resume schedule after timer
  let r3 : List Action × Registry × Bool :=
    if st.manualControlTermination = true ∧ st.power = Power.ON then
      if isAlive reg zname then ([], reg, false)
      else
        match st.temperature with
        | none => ([], reg, true)
        | some v =>
          ([Action.notice (Msg.scheduleResume st.power v zname zid)],
           insertReg reg zname (TimerEntry.running zid cfg.RESCHEDULE_TIMER), false)
    else ([], reg, false)
  match r3 with
  | (a3, reg2, true) => ⟨a1 ++ a2 ++ a3, reg2, true⟩
  | (a3, reg2, false) =>
    -- temp limit
    let a4 : List Action :=
      if cfg.ENABLE_TEMP_LIMIT = true then
        if 0 < st.heatingPowerPct ∧ st.power = Power.ON ∧ st.temperature.isSome then
          match st.temperature with
          | none => []
          | some sp =>
            if sp > cfg.MAX_TEMP then
              [Action.setZoneOverlay zid OverlayMode.MANUAL cfg.MAX_TEMP,
               Action.notice (Msg.clampedHigh zname sp cfg.MAX_TEMP)]
            else if sp < cfg.MIN_TEMP then
              [Action.setZoneOverlay zid OverlayMode.ZERO cfg.MIN_TEMP,
               Action.notice (Msg.clampedLow zname sp cfg.MIN_TEMP)]
            else []
        else []
      else []
    ⟨a1 ++ a2 ++ a3 ++ a4, reg2, false⟩

/-- The internal-temperature check alone (line 203 of the source). -/
def overheatActs (cfg : Config) (zid : Nat) (st : ZoneState) : List Action :=
  if st.insideTemperature ≥ cfg.MAX_INTERNAL_TEMP then [Action.resetZoneOverlay zid] else []

/-- The open-window rule alone (lines 207-216). -/
def openWindowActs (zid : Nat) (zname : String) (owd : Bool) : List Action :=
  if owd then
    [Action.notice (Msg.openWindowDetected zname), Action.setOpenWindow zid,
     Action.notice Msg.done, Action.notice Msg.waiting]
  else []

/-- The resume-schedule (manual-override) rule alone (lines 219-229):
actions, updated registry, and whether the `['value']` access raised. -/
def resumeStep (cfg : Config) (zid : Nat) (zname : String) (st : ZoneState)
    (reg : Registry) : List Action × Registry × Bool :=
  if st.manualControlTermination = true ∧ st.power = Power.ON then
    if isAlive reg zname then ([], reg, false)
    else
      match st.temperature with
      | none => ([], reg, true)
      | some v =>
        ([Action.notice (Msg.scheduleResume st.power v zname zid)],
         insertReg reg zname (TimerEntry.running zid cfg.RESCHEDULE_TIMER), false)
  else ([], reg, false)

/-- The temperature-limit rule alone (lines 232-256). -/
def tempLimitActs (cfg : Config) (zid : Nat) (zname : String) (st : ZoneState) :
    List Action :=
  if cfg.ENABLE_TEMP_LIMIT = true then
    if 0 < st.heatingPowerPct ∧ st.power = Power.ON ∧ st.temperature.isSome then
      match st.temperature with
      | none => []
      | some sp =>
        if sp > cfg.MAX_TEMP then
          [Action.setZoneOverlay zid OverlayMode.MANUAL cfg.MAX_TEMP,
           Action.notice (Msg.clampedHigh zname sp cfg.MAX_TEMP)]
        else if sp < cfg.MIN_TEMP then
          [Action.setZoneOverlay zid OverlayMode.ZERO cfg.MIN_TEMP,
           Action.notice (Msg.clampedLow zname sp cfg.MIN_TEMP)]
        else []
    else []
  else []

/-- One second of a `reset_to_schedule` thread (lines 185-191): the thread
sleeps `RESCHEDULE_TIMER` seconds, then unconditionally calls
`reset_zone_overlay` and logs, and is finished.  Nothing can interrupt the
countdown: the source has no cancellation flag or check. -/
def timerTick : TimerEntry → List Action × TimerEntry
  | .running zid (n + 1) => ([], .running zid n)
  | .running zid 0 =>
      ([Action.resetZoneOverlay zid, Action.notice (Msg.resumedSchedule zid)],
       .finished zid)
  | .finished zid => ([], .finished zid)

/-- Iterate `timerTick` for `n` seconds, accumulating the actions the
thread performs. -/
def runTimerSteps : Nat → TimerEntry → List Action × TimerEntry
  | 0, e => ([], e)
  | n + 1, e =>
      ((timerTick e).1 ++ (runTimerSteps n (timerTick e).2).1,
       (runTimerSteps n (timerTick e).2).2)

/-- One second of wall-clock time for every timer thread in the registry. -/
def regTick : Registry → List Action × Registry
  | [] => ([], [])
  | (k, e) :: rest =>
      let (a, e') := timerTick e
      let (as, rest') := regTick rest
      (a ++ as, (k, e') :: rest')

/-- A zone row returned by `t.get_zones()`. -/
structure ZoneInfo where
  roomId : Nat
  roomName : String
deriving DecidableEq, Repr

/-- The per-zone `for` loop of one tick (lines 198-256): evaluate each zone
in list order against the environment `env` (state and open-window flag per
zone id); an exception escaping one zone aborts the whole loop. -/
def tickZones (cfg : Config) (env : Nat → ZoneState × Bool) :
    List ZoneInfo → Registry → List Action × Registry × Bool
  | [], reg => ([], reg, false)
  | z :: zs, reg =>
      let r := evalZone cfg z.roomId z.roomName (env z.roomId).1 (env z.roomId).2 reg
      if r.raised then (r.acts, r.reg, true)
      else
        let (as, reg2, rr) := tickZones cfg env zs r.reg
        (r.acts ++ as, reg2, rr)

/-- One `location` field of a mobile device: `None` or a record with
`atHome`. -/
structure Location where
  atHome : Bool
deriving DecidableEq, Repr

/-- One row of `t.get_mobile_devices()`. -/
structure MobileDevice where
  name : String
  geoTrackingEnabled : Bool
  location : Option Location
deriving DecidableEq, Repr

/-- The device-collection loop (lines 263-267): append the name of every
device with geo-tracking enabled, a non-`None` location, and `atHome`
true, in list order. -/
def devicesHome : List MobileDevice → List String
  | [] => []
  | d :: ds =>
      if d.geoTrackingEnabled = true then
        match d.location with
        | some loc =>
            if loc.atHome = true then d.name :: devicesHome ds else devicesHome ds
        | none => devicesHome ds
      else devicesHome ds

/-- The spec's wording of device-home membership, as a predicate: geo-tracking
enabled AND last-known location non-null AND `atHome == true`. -/
def devIsHome (d : MobileDevice) : Bool :=
  d.geoTrackingEnabled &&
    match d.location with
    | some loc => loc.atHome
    | none => false

/-- The device-name string built by the loops at lines 284-290: names joined
with `", "` (a single name stands alone). -/
def joinDevices : List String → String
  | [] => ""
  | [d] => d
  | d :: ds => d ++ ", " ++ joinDevices ds

/-- The geofencing part of one tick (lines 258-305): the optional recovery
notice (keyed on the previous message), then the HOME/AWAY reconciliation
branch. -/
def geoStep (lastMessage : String) (homeState : Presence)
    (ds : List MobileDevice) : List Action :=
  let devs := devicesHome ds
  let recovery : List Action :=
    if pyFind lastMessage "Connection Error" || pyFind lastMessage "Waiting for the device location" then
      [Action.notice Msg.gotLocation, Action.notice Msg.waiting]
    else []
  recovery ++
    (if 0 < devs.length ∧ homeState = Presence.AWAY then
      [Action.notice (Msg.activatingHome (joinDevices devs)), Action.setHome,
       Action.notice Msg.done, Action.notice Msg.waiting]
    else if devs.length = 0 ∧ homeState = Presence.HOME then
      [Action.notice Msg.activatingAway, Action.setAway,
       Action.notice Msg.done, Action.notice Msg.waiting]
    else [])

/-- Outcome of the body of one `while True` iteration of `engine` (up to
the `except` clauses): it ran to the final sleep, it was interrupted, or it
raised an exception with text `str(e)`. -/
inductive TickOutcome
  | ok
  | keyboardInterrupt
  | err (text : String)
deriving DecidableEq, Repr

/-- What the loop does next after one iteration. -/
inductive StepKind
  | exited (code : Nat)
  | next (sleepSecs : ℚ)
deriving DecidableEq, Repr

/-- The exception handling of the `engine` loop (lines 306-325): a normal
iteration sleeps `CHECKING_INTERVAL`; `KeyboardInterrupt` logs and exits
with code 0; an exception whose text mentions `"location"` logs the
degraded-mode notice and sleeps `CHECKING_INTERVAL`; any other exception
logs the traceback notice and sleeps `ERROR_INTERVAL`.  In every
non-interrupt case the loop continues with a fresh iteration. -/
def handleTick (cfg : Config) : TickOutcome → StepKind × List Msg
  | .ok => (.next cfg.CHECKING_INTERVAL, [])
  | .keyboardInterrupt => (.exited 0, [Msg.interrupted])
  | .err t =>
      if pyFind t "location" then (.next cfg.CHECKING_INTERVAL, [Msg.locationUnavailable])
      else (.next cfg.ERROR_INTERVAL, [Msg.connectionRetry t])

/-- Run the `engine` loop against a list of modelled iteration outcomes:
returns the sleeps performed, the messages logged, and `some code` if the
process exited (`none` while the loop is still running when the modelled
outcomes are exhausted). -/
def engineRun (cfg : Config) : List TickOutcome → List ℚ × List Msg × Option Nat
  | [] => ([], [], none)
  | o :: rest =>
      match handleTick cfg o with
      | (StepKind.exited c, ms) => ([], ms, some c)
      | (StepKind.next s, ms) =>
          let (ss, ms2, e) := engineRun cfg rest
          (s :: ss, ms ++ ms2, e)

/-- Outcome of the `Tado(...)` construction inside `login`. -/
inductive LoginOutcome
  | ok
  | keyboardInterrupt
  | exc (text : String)
deriving DecidableEq, Repr

/-- What `login` does with that outcome. -/
inductive LoginStep
  | proceed
  | exited (code : Nat)
  | retryAfter (secs : ℚ)
deriving DecidableEq, Repr

/-- The exception handling of `login` (lines 52-78): success proceeds
(logging a recovery notice if the previous message mentioned a connection
error); `KeyboardInterrupt` exits; an exception mentioning `"access_token"`
logs the credential notice and exits; any other exception logs and retries
`login` after `ERROR_INTERVAL`. -/
def handleLogin (cfg : Config) (lastMessage : String) :
    LoginOutcome → LoginStep × List Msg
  | .ok =>
      (.proceed,
       if pyFind lastMessage "Connection Error" then [Msg.connectionEstablished] else [])
  | .keyboardInterrupt => (.exited 0, [Msg.interrupted])
  | .exc t =>
      if pyFind t "access_token" then (.exited 0, [Msg.loginError])
      else (.retryAfter cfg.ERROR_INTERVAL, [Msg.connectionRetry t])

/-- The globals of the notifier: `last_message` and `date_last_message`. -/
structure NotifierState where
  lastMessage : String
  dateLastMessage : Nat
deriving DecidableEq, Repr

/-- The `SAVE_LOGS` setting of the source. -/
def SAVE_LOGS : Bool := true

/-- Result of one `printm` call: lines written to stdout, lines appended to
the log file, the notifier state afterwards, and whether an exception
escaped `printm` (the only uncaught spot is `rotate_log`, called outside
the `try` block). -/
structure PrintResult where
  stdoutLines : List String
  logLines : List String
  state : NotifierState
  raised : Bool
deriving DecidableEq, Repr

/-- Model of `printm` (lines 328-357).  `stamp` is the formatted current time,
`today` the current day of month; `appendResult` is the outcome of the
attempted log append and `rotateOk` whether `rotate_log` (attempted only on
a day change) succeeds.  A message equal to the previous one does nothing
at all.  Otherwise the message line goes to stdout; with `SAVE_LOGS`, a
failed append is caught and its error text written to stdout; a failed
rotation escapes `printm` before `date_last_message` and `last_message`
are updated. -/
def printm (msg stamp : String) (today : Nat) (st : NotifierState)
    (appendResult : Except String Unit) (rotateOk : Bool) : PrintResult :=
  if msg = st.lastMessage then ⟨[], [], st, false⟩
  else
    let line := stamp ++ " # " ++ msg
    if SAVE_LOGS = true then
      let echoed : List String :=
        match appendResult with
        | Except.ok _ => []
        | Except.error e => [stamp ++ " # " ++ e]
      let appended : List String :=
        match appendResult with
        | Except.ok _ => [line]
        | Except.error _ => []
      if today ≠ st.dateLastMessage ∧ rotateOk = false then
        ⟨line :: echoed, appended, st, true⟩
      else
        ⟨line :: echoed, appended, ⟨msg, today⟩, false⟩
    else ⟨[line], [], ⟨msg, st.dateLastMessage⟩, false⟩

/-- The temp-limit rule as the source executes it, with every
`t.get_state` call made afresh: `g k` is the response to the `k`-th
`get_state` call of this zone's pass.  Calls, in order: `heatingPower`
(`g k`), `setting.power` (`g (k+1)`), the `setting.temperature is None`
test (`g (k+2)`), the `set_temp` value read (`g (k+3)`, raising if that
response's temperature is `None`), and the unused `current_temp` read
(`g (k+4)`). -/
def tempLimitO (cfg : Config) (zid : Nat) (zname : String)
    (g : Nat → ZoneState) (k : Nat) : List Action × Bool :=
  if cfg.ENABLE_TEMP_LIMIT = true then
    if 0 < (g k).heatingPowerPct then
      if (g (k + 1)).power = Power.ON then
        if (g (k + 2)).temperature.isSome then
          match (g (k + 3)).temperature with
          | none => ([], true)
          | some sp =>
            if sp > cfg.MAX_TEMP then
              ([Action.setZoneOverlay zid OverlayMode.MANUAL cfg.MAX_TEMP,
                Action.notice (Msg.clampedHigh zname sp cfg.MAX_TEMP)], false)
            else if sp < cfg.MIN_TEMP then
              ([Action.setZoneOverlay zid OverlayMode.ZERO cfg.MIN_TEMP,
                Action.notice (Msg.clampedLow zname sp cfg.MIN_TEMP)], false)
            else ([], false)
        else ([], false)
      else ([], false)
    else ([], false)
  else ([], false)

/-- One zone's pass of the `engine` loop body exactly as the source makes
its remote calls: every access to zone state is a fresh `t.get_state`
call, numbered in program order and answered by the oracle `g`.  Call 0 is
the internal-temperature check; call 1 reads `manualControlTermination`;
call 2 reads `setting.power` (only reached when call 1 was non-`None`,
because Python `and` short-circuits); when a reschedule starts, calls 3
and 4 feed the log message (power, then the temperature value, which
raises on a `None` temperature); the temp-limit calls follow from the next
free index. -/
def evalZoneO (cfg : Config) (zid : Nat) (zname : String)
    (g : Nat → ZoneState) (owd : Bool) (reg : Registry) : EvalResult :=
  let a1 : List Action :=
    if (g 0).insideTemperature ≥ cfg.MAX_INTERNAL_TEMP then [Action.resetZoneOverlay zid] else []
  let a2 : List Action := openWindowActs zid zname owd
  let r3 : List Action × Registry × Bool × Nat :=
    if (g 1).manualControlTermination = true then
      if (g 2).power = Power.ON then
        if isAlive reg zname then ([], reg, false, 3)
        else
          match (g 4).temperature with
          | none => ([], reg, true, 5)
          | some v =>
            ([Action.notice (Msg.scheduleResume (g 3).power v zname zid)],
             insertReg reg zname (TimerEntry.running zid cfg.RESCHEDULE_TIMER), false, 5)
      else ([], reg, false, 3)
    else ([], reg, false, 2)
  match r3 with
  | (a3, reg2, true, _) => ⟨a1 ++ a2 ++ a3, reg2, true⟩
  | (a3, reg2, false, k) =>
      let (a4, raised4) := tempLimitO cfg zid zname g k
      ⟨a1 ++ a2 ++ a3 ++ a4, reg2, raised4⟩

/-! ### Concrete inputs used by counterexamples and witnesses -/

/-- A zone with an active manual override and heating ON: starts a
reschedule timer. -/
def stManualOn : ZoneState :=
  { insideTemperature := 20, power := Power.ON, temperature := some 20,
    heatingPowerPct := 0, manualControlTermination := true,
    openWindowActive := false }

/-- The same zone one tick later, after its power turned OFF. -/
def stManualOff : ZoneState :=
  { stManualOn with power := Power.OFF }

/-- A zone whose open-window override is already active while the detection
flag is raised, with an out-of-range setpoint. -/
def stWindowActive : ZoneState :=
  { insideTemperature := 20, power := Power.ON, temperature := some 28,
    heatingPowerPct := 1, manualControlTermination := false,
    openWindowActive := true }

/-- A zone over the internal overheat threshold (26) with a window
detected. -/
def stOverheat : ZoneState :=
  { insideTemperature := 27, power := Power.ON, temperature := some 20,
    heatingPowerPct := 0, manualControlTermination := false,
    openWindowActive := false }

/-- Scenario A's zone: heating on with setpoint 28 above `MAX_TEMP = 25`. -/
def stHighSet : ZoneState :=
  { insideTemperature := 20, power := Power.ON, temperature := some 28,
    heatingPowerPct := 1, manualControlTermination := false,
    openWindowActive := false }

/-- A zone with setpoint 2 below `MIN_TEMP = 5`. -/
def stLowSet : ZoneState :=
  { insideTemperature := 20, power := Power.ON, temperature := some 2,
    heatingPowerPct := 1, manualControlTermination := false,
    openWindowActive := false }

/-- A zone whose setpoint sits exactly at `MAX_TEMP = 25`. -/
def stBoundary : ZoneState :=
  { insideTemperature := 20, power := Power.ON, temperature := some 25,
    heatingPowerPct := 1, manualControlTermination := false,
    openWindowActive := false }

/-- A geo-tracked device at home, used by Scenario C. -/
def alice : MobileDevice :=
  { name := "Alice", geoTrackingEnabled := true, location := some { atHome := true } }

/-- An oracle whose first `get_state` response differs from all later
ones: the first response shows an overheated zone with setpoint 28, every
later response a mild zone with setpoint 20. -/
def gMix : Nat → ZoneState :=
  fun n => if n = 0 then
    { insideTemperature := 27, power := Power.ON, temperature := some 28,
      heatingPowerPct := 1, manualControlTermination := false,
      openWindowActive := false }
  else
    { insideTemperature := 20, power := Power.ON, temperature := some 20,
      heatingPowerPct := 1, manualControlTermination := false,
      openWindowActive := false }

/-- The constant oracle answering every call with `gMix 0`. -/
def gConst : Nat → ZoneState := fun _ => gMix 0


/-! ### Theorems -/

/-- The function `evalZone` is the sequential composition of the four independent rule
checks, in source order; the temp-limit rule is reached unless the
resume-schedule rule raised. -/
theorem evalZone_decomp (cfg : Config) (zid : Nat) (zname : String)
    (st : ZoneState) (owd : Bool) (reg : Registry) :
    evalZone cfg zid zname st owd reg =
      if (resumeStep cfg zid zname st reg).2.2 then
        ⟨overheatActs cfg zid st ++ openWindowActs zid zname owd ++
           (resumeStep cfg zid zname st reg).1,
         (resumeStep cfg zid zname st reg).2.1, true⟩
      else
        ⟨overheatActs cfg zid st ++ openWindowActs zid zname owd ++
           (resumeStep cfg zid zname st reg).1 ++ tempLimitActs cfg zid zname st,
         (resumeStep cfg zid zname st reg).2.1, false⟩ := by
  unfold evalZone resumeStep overheatActs openWindowActs tempLimitActs
  by_cases h1 : st.manualControlTermination = true ∧ st.power = Power.ON
  · simp only [if_pos h1]
    by_cases h2 : isAlive reg zname
    · simp [h2]
    · simp only [h2, if_neg, Bool.false_eq_true, not_false_eq_true, if_false]
      cases h3 : st.temperature with
      | none => simp
      | some v => simp
  · simp [h1]

/-- A key occurs in the registry after an insertion iff it is the inserted
key or occurred before. -/
theorem mem_keys_insertReg (reg : Registry) (n m : String) (e : TimerEntry) :
    m ∈ (insertReg reg n e).map Prod.fst ↔ m = n ∨ m ∈ reg.map Prod.fst := by
  induction reg with
  | nil => simp [insertReg]
  | cons p rest ih =>
    obtain ⟨k, v⟩ := p
    by_cases hkn : k = n
    · subst hkn
      simp [insertReg]
    · simp only [insertReg, if_neg hkn, List.map_cons, List.mem_cons, ih]
      tauto

/-- Dictionary assignment preserves key uniqueness. -/
theorem nodupKeys_insertReg (reg : Registry) (n : String) (e : TimerEntry)
    (h : nodupKeys reg) : nodupKeys (insertReg reg n e) := by
  induction reg with
  | nil => simp [insertReg, nodupKeys]
  | cons p rest ih =>
    obtain ⟨k, v⟩ := p
    unfold nodupKeys at h ⊢
    simp only [List.map_cons, List.nodup_cons] at h
    obtain ⟨hk, hrest⟩ := h
    by_cases hkn : k = n
    · subst hkn
      have he : insertReg ((k, v) :: rest) k e = (k, e) :: rest := by
        unfold insertReg; simp
      rw [he]
      simp only [List.map_cons, List.nodup_cons]
      exact ⟨hk, hrest⟩
    · simp only [insertReg, if_neg hkn, List.map_cons, List.nodup_cons]
      refine ⟨?_, ih hrest⟩
      intro hmem
      rcases (mem_keys_insertReg rest n k e).mp hmem with h1 | h2
      · exact hkn h1
      · exact hk h2

/-- With unique keys, at most one registry entry for a given name is a live
timer. -/
theorem live_entries_le_one (reg : Registry) (n : String) (h : nodupKeys reg) :
    (reg.filter fun p => p.1 == n && entryAlive p.2).length ≤ 1 := by
  induction reg with
  | nil => simp
  | cons p rest ih =>
    obtain ⟨k, v⟩ := p
    unfold nodupKeys at h
    simp only [List.map_cons, List.nodup_cons] at h
    obtain ⟨hk, hrest⟩ := h
    by_cases hkn : k = n
    · subst hkn
      have hnil : rest.filter (fun p => p.1 == k && entryAlive p.2) = [] := by
        rw [List.filter_eq_nil_iff]
        intro p hp
        have : p.1 ≠ k := by
          intro he
          exact hk (he ▸ List.mem_map_of_mem Prod.fst hp)
        simp [this]
      by_cases hv : entryAlive v
      · simp [List.filter_cons, hv, hnil]
      · simp [List.filter_cons, hv, hnil]
    · have : ((k, v).1 == n && entryAlive (k, v).2) = false := by
        simp [hkn]
      simp only [List.filter_cons, this, Bool.false_eq_true, if_false]
      exact ih hrest

/-- The registry produced by the resume-schedule rule is the old one or a
single dictionary assignment to it. -/
theorem resumeStep_reg (cfg : Config) (zid : Nat) (zname : String)
    (st : ZoneState) (reg : Registry) :
    (resumeStep cfg zid zname st reg).2.1 = reg ∨
      (resumeStep cfg zid zname st reg).2.1 =
        insertReg reg zname (TimerEntry.running zid cfg.RESCHEDULE_TIMER) := by
  unfold resumeStep
  by_cases h1 : st.manualControlTermination = true ∧ st.power = Power.ON
  · simp only [if_pos h1]
    by_cases h2 : isAlive reg zname
    · simp [h2]
    · simp only [h2, Bool.false_eq_true, if_false]
      cases st.temperature with
      | none => simp
      | some v => simp
  · simp [h1]

/-- Evaluating one zone preserves registry key uniqueness. -/
theorem nodupKeys_evalZone (cfg : Config) (zid : Nat) (zname : String)
    (st : ZoneState) (owd : Bool) (reg : Registry) (h : nodupKeys reg) :
    nodupKeys (evalZone cfg zid zname st owd reg).reg := by
  rw [evalZone_decomp]
  rcases resumeStep_reg cfg zid zname st reg with hr | hr
  · by_cases hb : (resumeStep cfg zid zname st reg).2.2
    · simp only [if_pos hb]; rw [hr]; exact h
    · simp only [if_neg hb]; rw [hr]; exact h
  · by_cases hb : (resumeStep cfg zid zname st reg).2.2
    · simp only [if_pos hb]; rw [hr]; exact nodupKeys_insertReg reg zname _ h
    · simp only [if_neg hb]; rw [hr]; exact nodupKeys_insertReg reg zname _ h

/-- A whole tick's zone loop preserves registry key uniqueness. -/
theorem nodupKeys_tickZones (cfg : Config) (env : Nat → ZoneState × Bool)
    (zones : List ZoneInfo) (reg : Registry) (h : nodupKeys reg) :
    nodupKeys (tickZones cfg env zones reg).2.1 := by
  induction zones generalizing reg with
  | nil => exact h
  | cons z zs ih =>
    unfold tickZones
    by_cases hr : (evalZone cfg z.roomId z.roomName (env z.roomId).1 (env z.roomId).2 reg).raised
    · simp only [hr, if_true]
      exact nodupKeys_evalZone cfg z.roomId z.roomName (env z.roomId).1 (env z.roomId).2 reg h
    · simp only [hr, if_false]
      exact ih _ (nodupKeys_evalZone cfg z.roomId z.roomName (env z.roomId).1 (env z.roomId).2 reg h)

/-- Timer countdown leaves the set of registry keys unchanged. -/
theorem regTick_keys (reg : Registry) :
    (regTick reg).2.map Prod.fst = reg.map Prod.fst := by
  induction reg with
  | nil => rfl
  | cons p rest ih =>
    obtain ⟨k, v⟩ := p
    unfold regTick
    simp [ih]

/-- The device-collection loop computes exactly the names of the devices
satisfying the spec's membership predicate. -/
theorem devicesHome_eq_filter (ds : List MobileDevice) :
    devicesHome ds = (ds.filter devIsHome).map MobileDevice.name := by
  induction ds with
  | nil => rfl
  | cons d ds ih =>
    by_cases hg : d.geoTrackingEnabled = true
    · cases hl : d.location with
      | none => simp [devicesHome, devIsHome, hg, hl, ih, List.filter_cons]
      | some loc =>
        by_cases hh : loc.atHome = true
        · simp [devicesHome, devIsHome, hg, hl, hh, ih, List.filter_cons]
        · simp [devicesHome, devIsHome, hg, hl, hh, ih, List.filter_cons]
    · simp [devicesHome, devIsHome, hg, ih, List.filter_cons]

/-- When every `get_state` call of a zone pass returns the same state, the
call-accurate temp-limit rule coincides with the single-snapshot one and
raises nothing. -/
theorem tempLimitO_const (cfg : Config) (zid : Nat) (zname : String)
    (st : ZoneState) (k : Nat) :
    tempLimitO cfg zid zname (fun _ => st) k = (tempLimitActs cfg zid zname st, false) := by
  unfold tempLimitO tempLimitActs
  cases htl : cfg.ENABLE_TEMP_LIMIT
  · simp
  · by_cases hh : 0 < st.heatingPowerPct
    · by_cases hp : st.power = Power.ON
      · cases ht : st.temperature with
        | none => simp [hh, hp, ht]
        | some sp =>
          simp only [hh, hp, ht]
          by_cases hc1 : cfg.MAX_TEMP < sp
          · simp [hc1]
          · by_cases hc2 : sp < cfg.MIN_TEMP
            · simp [hc1, hc2]
            · simp [hc1, hc2]
      · simp [hh, hp]
    · simp [hh]

/-- Every action of the internal-temperature check is the overlay reset. -/
theorem mem_overheatActs {cfg : Config} {zid : Nat} {st : ZoneState} {a : Action}
    (h : a ∈ overheatActs cfg zid st) : a = Action.resetZoneOverlay zid := by
  unfold overheatActs at h
  split at h <;> simp_all

/-- Every action of the open-window rule is one of its four emissions. -/
theorem mem_openWindowActs {zid : Nat} {zname : String} {owd : Bool} {a : Action}
    (h : a ∈ openWindowActs zid zname owd) :
    a = Action.notice (Msg.openWindowDetected zname) ∨ a = Action.setOpenWindow zid ∨
      a = Action.notice Msg.done ∨ a = Action.notice Msg.waiting := by
  unfold openWindowActs at h
  split at h <;> simp_all

/-- Every action of the resume-schedule rule is a schedule-resume notice. -/
theorem mem_resumeActs {cfg : Config} {zid : Nat} {zname : String} {st : ZoneState}
    {reg : Registry} {a : Action} (h : a ∈ (resumeStep cfg zid zname st reg).1) :
    ∃ p v zn zi, a = Action.notice (Msg.scheduleResume p v zn zi) := by
  unfold resumeStep at h
  by_cases h1 : st.manualControlTermination = true ∧ st.power = Power.ON
  · rw [if_pos h1] at h
    by_cases h2 : isAlive reg zname
    · simp [h2] at h
    · simp only [h2, Bool.false_eq_true, if_false] at h
      cases ht : st.temperature with
      | none => rw [ht] at h; simp at h
      | some v =>
        rw [ht] at h
        simp at h
        exact ⟨_, _, _, _, h⟩
  · rw [if_neg h1] at h; simp at h

/-- Every action of the temp-limit rule is an overlay call or a clamp
notice. -/
theorem mem_tempLimitActs {cfg : Config} {zid : Nat} {zname : String}
    {st : ZoneState} {a : Action} (h : a ∈ tempLimitActs cfg zid zname st) :
    (∃ m t, a = Action.setZoneOverlay zid m t) ∨
      (∃ zn s t, a = Action.notice (Msg.clampedHigh zn s t)) ∨
      (∃ zn s t, a = Action.notice (Msg.clampedLow zn s t)) := by
  unfold tempLimitActs at h
  split at h
  · split at h
    · split at h
      · simp at h
      · split at h
        · simp at h
          rcases h with h | h
          · exact Or.inl ⟨_, _, h⟩
          · exact Or.inr (Or.inl ⟨_, _, _, h⟩)
        · split at h
          · simp at h
            rcases h with h | h
            · exact Or.inl ⟨_, _, h⟩
            · exact Or.inr (Or.inr ⟨_, _, _, h⟩)
          · simp at h
    · simp at h
  · simp at h

/-- With a present setpoint, the resume-schedule rule cannot raise. -/
theorem resumeStep_not_raised {cfg : Config} {zid : Nat} {zname : String}
    {st : ZoneState} {reg : Registry} {sp : ℚ} (ht : st.temperature = some sp) :
    (resumeStep cfg zid zname st reg).2.2 = false := by
  unfold resumeStep
  by_cases h1 : st.manualControlTermination = true ∧ st.power = Power.ON
  · rw [if_pos h1]
    by_cases h2 : isAlive reg zname
    · simp [h2]
    · simp only [h2, Bool.false_eq_true, if_false]
      rw [ht]
  · rw [if_neg h1]

/-- When the zone name already has a live timer, or the rule guard fails,
the resume-schedule rule does nothing. -/
theorem resumeStep_of_alive {cfg : Config} {zid : Nat} {zname : String}
    {st : ZoneState} {reg : Registry} (h : isAlive reg zname = true) :
    resumeStep cfg zid zname st reg = ([], reg, false) := by
  unfold resumeStep
  by_cases h1 : st.manualControlTermination = true ∧ st.power = Power.ON
  · simp [h1, h]
  · simp [h1]

/-- A sleeping `reset_to_schedule` thread with `n` seconds left fires after
`n + 1` seconds, performing exactly the overlay reset and its log line. -/
theorem runTimerSteps_fires (n z : Nat) :
    runTimerSteps (n + 1) (TimerEntry.running z n) =
      ([Action.resetZoneOverlay z, Action.notice (Msg.resumedSchedule z)],
       TimerEntry.finished z) := by
  induction n with
  | zero => rfl
  | succ m ih =>
    have hstep : runTimerSteps (m + 1 + 1) (TimerEntry.running z (m + 1)) =
        ((runTimerSteps (m + 1) (TimerEntry.running z m)).1,
         (runTimerSteps (m + 1) (TimerEntry.running z m)).2) := rfl
    rw [hstep, ih]

/-! ### Claims -/

/-- C1 counterexample.  A timer started for a zone (power ON with a manual
override) is still alive after a later evaluation sees the zone's power
OFF — the engine leaves the registry untouched, there being no cancel path
— and when the countdown ends, `reset_zone_overlay` is invoked for that
very start.  This refutes the claim that turning the power OFF before
expiry cancels the timer and prevents the reversion call. -/
theorem C1_cancel_counterexample :
    (evalZone srcConfig 1 "Room" stManualOn false []).reg =
        [("Room", TimerEntry.running 1 900)] ∧
    (evalZone srcConfig 1 "Room" stManualOff false
        [("Room", TimerEntry.running 1 900)]).reg =
        [("Room", TimerEntry.running 1 900)] ∧
    isAlive [("Room", TimerEntry.running 1 900)] "Room" = true ∧
    Action.resetZoneOverlay 1 ∈
      (runTimerSteps (900 + 1) (TimerEntry.running 1 900)).1 := by
  refine ⟨by decide, by decide, by decide, ?_⟩
  rw [runTimerSteps_fires 900 1]
  decide

/-- C1 (amended): the code has no timer cancellation.  If a zone's power
turns OFF, the engine's evaluation leaves the timer registry unchanged
(the running timer stays live), and a running timer always invokes
`reset_zone_overlay` when its countdown expires, regardless of any state
change in between. -/
theorem C1_timer_never_cancelled :
    (∀ (cfg : Config) (zid : Nat) (zname : String) (st : ZoneState)
        (owd : Bool) (reg : Registry),
        st.power = Power.OFF → (evalZone cfg zid zname st owd reg).reg = reg) ∧
    (∀ n z : Nat,
        runTimerSteps (n + 1) (TimerEntry.running z n) =
          ([Action.resetZoneOverlay z, Action.notice (Msg.resumedSchedule z)],
           TimerEntry.finished z)) := by
  constructor
  · intro cfg zid zname st owd reg hoff
    rw [evalZone_decomp]
    have h1 : ¬(st.manualControlTermination = true ∧ st.power = Power.ON) := by
      rintro ⟨-, h⟩
      rw [hoff] at h
      exact absurd h (by decide)
    have hr : resumeStep cfg zid zname st reg = ([], reg, false) := by
      unfold resumeStep
      rw [if_neg h1]
    rw [hr]
    simp
  · exact runTimerSteps_fires

/-- C1 witness: the amended claim instantiated on a live 5-second timer for
"Kitchen" whose zone just turned OFF, and a 3-second timer for zone 7. -/
theorem C1_timer_never_cancelled_witness :
    (evalZone srcConfig 2 "Kitchen" stManualOff false
        [("Kitchen", TimerEntry.running 2 5)]).reg =
      [("Kitchen", TimerEntry.running 2 5)] ∧
    runTimerSteps (3 + 1) (TimerEntry.running 7 3) =
      ([Action.resetZoneOverlay 7, Action.notice (Msg.resumedSchedule 7)],
       TimerEntry.finished 7) :=
  ⟨C1_timer_never_cancelled.1 srcConfig 2 "Kitchen" stManualOff false
      [("Kitchen", TimerEntry.running 2 5)] (by decide),
   C1_timer_never_cancelled.2 3 7⟩

/-- C2 counterexample.  On a zone whose open-window override is already
active (`openWindowActive = true`) and whose detection flag is raised, the
engine still performs the `set_open_window` call (it never reads the
active flag, and emits the "activating" notice, not an "already active"
one), and evaluation of the zone does not stop: the setpoint clamp of the
same pass still issues its overlay call. -/
theorem C2_already_active_counterexample :
    stWindowActive.openWindowActive = true ∧
    Action.setOpenWindow 1 ∈
      (evalZone srcConfig 1 "Living" stWindowActive true []).acts ∧
    Action.setZoneOverlay 1 OverlayMode.MANUAL 25 ∈
      (evalZone srcConfig 1 "Living" stWindowActive true []).acts := by
  refine ⟨rfl, by decide, by decide⟩

/-- C2 (amended): whenever the open-window detection flag is raised the
engine emits the activating notice and calls `set_open_window`,
independently of the zone's `openWindowActive` state (which the code never
reads), and evaluation of the zone continues with the remaining rules. -/
theorem C2_open_window_always_fires :
    ∀ (cfg : Config) (zid : Nat) (zname : String) (st : ZoneState)
      (owd : Bool) (reg : Registry) (b : Bool),
      evalZone cfg zid zname { st with openWindowActive := b } owd reg =
          evalZone cfg zid zname st owd reg ∧
      (owd = true →
        Action.setOpenWindow zid ∈ (evalZone cfg zid zname st owd reg).acts ∧
        Action.notice (Msg.openWindowDetected zname) ∈
          (evalZone cfg zid zname st owd reg).acts) := by
  intro cfg zid zname st owd reg b
  constructor
  · cases st
    rfl
  · intro how
    rw [evalZone_decomp]
    have h2 : Action.setOpenWindow zid ∈ openWindowActs zid zname owd ∧
        Action.notice (Msg.openWindowDetected zname) ∈ openWindowActs zid zname owd := by
      rw [how]
      unfold openWindowActs
      simp
    by_cases hb : (resumeStep cfg zid zname st reg).2.2
    · simp only [if_pos hb]
      exact ⟨by simp [h2.1], by simp [h2.2]⟩
    · simp only [if_neg hb]
      exact ⟨by simp [h2.1], by simp [h2.2]⟩

/-- C2 witness: the amended claim instantiated on the already-active zone
of the counterexample. -/
theorem C2_open_window_always_fires_witness :
    evalZone srcConfig 1 "Living" { stWindowActive with openWindowActive := false }
        true [] = evalZone srcConfig 1 "Living" stWindowActive true [] ∧
    Action.setOpenWindow 1 ∈
      (evalZone srcConfig 1 "Living" stWindowActive true []).acts :=
  ⟨(C2_open_window_always_fires srcConfig 1 "Living" stWindowActive true [] false).1,
   ((C2_open_window_always_fires srcConfig 1 "Living" stWindowActive true [] false).2 rfl).1⟩

/-- C3: the registry holds at most one entry — hence at most one live
timer — per zone name (key uniqueness being preserved by every zone pass
of a tick and by timer countdown), and when a zone already has a live
timer, the start is a no-op: the registry is unchanged and no
schedule-resume message is logged. -/
theorem C3_one_timer_per_zone :
    (∀ (reg : Registry) (n : String), nodupKeys reg →
        (reg.filter fun p => p.1 == n && entryAlive p.2).length ≤ 1) ∧
    (∀ (cfg : Config) (env : Nat → ZoneState × Bool) (zones : List ZoneInfo)
        (reg : Registry), nodupKeys reg →
        nodupKeys (tickZones cfg env zones reg).2.1) ∧
    (∀ reg : Registry, (regTick reg).2.map Prod.fst = reg.map Prod.fst) ∧
    (∀ (cfg : Config) (zid : Nat) (zname : String) (st : ZoneState)
        (owd : Bool) (reg : Registry), isAlive reg zname = true →
        (evalZone cfg zid zname st owd reg).reg = reg ∧
        ∀ p v zn zi, Action.notice (Msg.scheduleResume p v zn zi) ∉
          (evalZone cfg zid zname st owd reg).acts) := by
  refine ⟨live_entries_le_one, nodupKeys_tickZones, regTick_keys, ?_⟩
  intro cfg zid zname st owd reg halive
  have hr := @resumeStep_of_alive cfg zid zname st reg halive
  have h1 : (resumeStep cfg zid zname st reg).2.2 = false := by rw [hr]
  have h2 : (resumeStep cfg zid zname st reg).1 = [] := by rw [hr]
  have h3 : (resumeStep cfg zid zname st reg).2.1 = reg := by rw [hr]
  have hdec := evalZone_decomp cfg zid zname st owd reg
  rw [h1, h2, h3] at hdec
  simp only [Bool.false_eq_true, if_false, List.append_nil] at hdec
  refine ⟨by rw [hdec], ?_⟩
  intro p v zn zi hmem
  rw [hdec] at hmem
  simp only [List.mem_append] at hmem
  rcases hmem with (hmem | hmem) | hmem
  · exact absurd (mem_overheatActs hmem) (by simp)
  · rcases mem_openWindowActs hmem with h | h | h | h <;> simp at h
  · rcases mem_tempLimitActs hmem with ⟨m, t, h⟩ | ⟨zn2, s, t, h⟩ | ⟨zn2, s, t, h⟩ <;>
      simp at h

/-- C3 witness: the invariant and no-op parts instantiated on a registry
with one live "Room" timer. -/
theorem C3_one_timer_per_zone_witness :
    (([("Room", TimerEntry.running 1 900)] : Registry).filter
        (fun p => p.1 == "Room" && entryAlive p.2)).length ≤ 1 ∧
    nodupKeys (tickZones srcConfig (fun _ => (stManualOn, false))
        [⟨1, "Room"⟩] [("Room", TimerEntry.running 1 900)]).2.1 ∧
    (regTick [("Room", TimerEntry.running 1 900)]).2.map Prod.fst =
      [("Room", TimerEntry.running 1 900)].map Prod.fst ∧
    (evalZone srcConfig 1 "Room" stManualOn false
        [("Room", TimerEntry.running 1 900)]).reg =
      [("Room", TimerEntry.running 1 900)] :=
  ⟨C3_one_timer_per_zone.1 [("Room", TimerEntry.running 1 900)] "Room" (by decide),
   C3_one_timer_per_zone.2.1 srcConfig (fun _ => (stManualOn, false)) [⟨1, "Room"⟩]
     [("Room", TimerEntry.running 1 900)] (by decide),
   C3_one_timer_per_zone.2.2.1 [("Room", TimerEntry.running 1 900)],
   (C3_one_timer_per_zone.2.2.2 srcConfig 1 "Room" stManualOn false
     [("Room", TimerEntry.running 1 900)] (by decide)).1⟩

/-- C4 counterexample.  On a zone over the overheat threshold with an open
window detected, the engine's action list starts with the overlay reset
(overheat is checked first, not open-window) and still contains the
open-window override call and notices: two rules both applied within one
pass, so the first matching rule does not short-circuit the rest, and
open-window does not precede the overheat guard. -/
theorem C4_order_counterexample :
    (evalZone srcConfig 1 "Bath" stOverheat true []).acts =
      [Action.resetZoneOverlay 1, Action.notice (Msg.openWindowDetected "Bath"),
       Action.setOpenWindow 1, Action.notice Msg.done, Action.notice Msg.waiting] := by
  decide

/-- C4 (amended): within a tick each zone's rules are evaluated in the
source order internal-overheat guard, open-window, manual-override
(resume-schedule), setpoint clamp, and every matching rule contributes its
actions — there is no short-circuit (the only cutoff being an exception
raised inside the resume-schedule rule). -/
theorem C4_rule_order :
    ∀ (cfg : Config) (zid : Nat) (zname : String) (st : ZoneState)
      (owd : Bool) (reg : Registry),
      (resumeStep cfg zid zname st reg).2.2 = false →
      (evalZone cfg zid zname st owd reg).acts =
        overheatActs cfg zid st ++ openWindowActs zid zname owd ++
          (resumeStep cfg zid zname st reg).1 ++ tempLimitActs cfg zid zname st := by
  intro cfg zid zname st owd reg h
  rw [evalZone_decomp]
  simp [h]

/-- C4 witness: the amended decomposition instantiated on the counterexample
zone. -/
theorem C4_rule_order_witness :
    (evalZone srcConfig 1 "Bath" stOverheat true []).acts =
      overheatActs srcConfig 1 stOverheat ++ openWindowActs 1 "Bath" true ++
        (resumeStep srcConfig 1 "Bath" stOverheat []).1 ++
        tempLimitActs srcConfig 1 "Bath" stOverheat :=
  C4_rule_order srcConfig 1 "Bath" stOverheat true [] (by decide)

/-- C5: with temperature-limit enforcement enabled, a zone with heating
power, power ON and a present setpoint gets `set_zone_overlay(id,
"MANUAL", MAX_TEMP)` plus the clamped-high notice when the setpoint
exceeds `MAX_TEMP`, and `set_zone_overlay(id, 0, MIN_TEMP)` (the
schedule-off sentinel mode) plus the clamped-low notice when the setpoint
is below `MIN_TEMP` (the `elif` making the two exclusive). -/
theorem C5_setpoint_clamp :
    ∀ (cfg : Config) (zid : Nat) (zname : String) (st : ZoneState)
      (owd : Bool) (reg : Registry) (sp : ℚ),
      cfg.ENABLE_TEMP_LIMIT = true →
      0 < st.heatingPowerPct → st.power = Power.ON → st.temperature = some sp →
      (cfg.MAX_TEMP < sp →
        Action.setZoneOverlay zid OverlayMode.MANUAL cfg.MAX_TEMP ∈
            (evalZone cfg zid zname st owd reg).acts ∧
        Action.notice (Msg.clampedHigh zname sp cfg.MAX_TEMP) ∈
            (evalZone cfg zid zname st owd reg).acts) ∧
      (¬cfg.MAX_TEMP < sp → sp < cfg.MIN_TEMP →
        Action.setZoneOverlay zid OverlayMode.ZERO cfg.MIN_TEMP ∈
            (evalZone cfg zid zname st owd reg).acts ∧
        Action.notice (Msg.clampedLow zname sp cfg.MIN_TEMP) ∈
            (evalZone cfg zid zname st owd reg).acts) := by
  intro cfg zid zname st owd reg sp htl hh hp ht
  have hnr : (resumeStep cfg zid zname st reg).2.2 = false := resumeStep_not_raised ht
  have hdec := evalZone_decomp cfg zid zname st owd reg
  rw [hnr] at hdec
  simp only [if_false, Bool.false_eq_true] at hdec
  constructor
  · intro hgt
    have h4 : tempLimitActs cfg zid zname st =
        [Action.setZoneOverlay zid OverlayMode.MANUAL cfg.MAX_TEMP,
         Action.notice (Msg.clampedHigh zname sp cfg.MAX_TEMP)] := by
      unfold tempLimitActs
      rw [if_pos htl, if_pos ⟨hh, hp, by simp [ht]⟩, ht]
      simp [hgt]
    rw [hdec, h4]
    constructor <;> simp
  · intro hng hlt
    have h4 : tempLimitActs cfg zid zname st =
        [Action.setZoneOverlay zid OverlayMode.ZERO cfg.MIN_TEMP,
         Action.notice (Msg.clampedLow zname sp cfg.MIN_TEMP)] := by
      unfold tempLimitActs
      rw [if_pos htl, if_pos ⟨hh, hp, by simp [ht]⟩, ht]
      simp [hng, hlt]
    rw [hdec, h4]
    constructor <;> simp

/-- C5 witness: Scenario A (setpoint 28 against `MAX_TEMP = 25` yields the
MANUAL overlay at 25) and the low clamp (setpoint 2 against `MIN_TEMP = 5`
yields the sentinel-mode overlay at 5). -/
theorem C5_setpoint_clamp_witness :
    Action.setZoneOverlay 1 OverlayMode.MANUAL 25 ∈
        (evalZone srcConfig 1 "Living" stHighSet false []).acts ∧
    Action.setZoneOverlay 1 OverlayMode.ZERO 5 ∈
        (evalZone srcConfig 1 "Living" stLowSet false []).acts :=
  ⟨((C5_setpoint_clamp srcConfig 1 "Living" stHighSet false [] 28
      rfl (by decide) rfl rfl).1 (by decide)).1,
   ((C5_setpoint_clamp srcConfig 1 "Living" stLowSet false [] 2
      rfl (by decide) rfl rfl).2 (by decide) (by decide)).1⟩

/-- C6: the geofencing step issues `set_home` (with a notice naming the
home devices) exactly when some device is home and the household is AWAY,
issues `set_away` exactly when no device is home and the household is
HOME, issues no mode call in the two consistent cases, and a device
counts as home exactly when geo-tracking is enabled, its location is
non-null, and `atHome` is true. -/
theorem C6_geofencing :
    (∀ (lm : String) (ds : List MobileDevice), devicesHome ds ≠ [] →
        Action.setHome ∈ geoStep lm Presence.AWAY ds ∧
        Action.notice (Msg.activatingHome (joinDevices (devicesHome ds))) ∈
          geoStep lm Presence.AWAY ds) ∧
    (∀ (lm : String) (ds : List MobileDevice), devicesHome ds = [] →
        Action.setAway ∈ geoStep lm Presence.HOME ds) ∧
    (∀ (lm : String) (ds : List MobileDevice), devicesHome ds ≠ [] →
        Action.setHome ∉ geoStep lm Presence.HOME ds ∧
        Action.setAway ∉ geoStep lm Presence.HOME ds) ∧
    (∀ (lm : String) (ds : List MobileDevice), devicesHome ds = [] →
        Action.setHome ∉ geoStep lm Presence.AWAY ds ∧
        Action.setAway ∉ geoStep lm Presence.AWAY ds) ∧
    (∀ ds : List MobileDevice,
        devicesHome ds = (ds.filter devIsHome).map MobileDevice.name) := by
  refine ⟨?_, ?_, ?_, ?_, devicesHome_eq_filter⟩
  · intro lm ds hne
    have hlen : 0 < (devicesHome ds).length := List.length_pos.mpr hne
    constructor <;> simp [geoStep, hlen, List.mem_append]
  · intro lm ds he
    simp [geoStep, he]
  · intro lm ds hne
    have hlen : ¬(devicesHome ds).length = 0 := by
      simpa [List.length_eq_zero] using hne
    constructor <;> simp [geoStep, hlen, List.mem_append]
  · intro lm ds he
    constructor <;> simp [geoStep, he, List.mem_append]

/-- C6 witness: Scenario C (device "Alice" home while AWAY yields
`set_home` and a notice naming Alice) and Scenario B (no device home while
HOME yields `set_away`). -/
theorem C6_geofencing_witness :
    Action.setHome ∈ geoStep "" Presence.AWAY [alice] ∧
    Action.notice (Msg.activatingHome (joinDevices (devicesHome [alice]))) ∈
      geoStep "" Presence.AWAY [alice] ∧
    joinDevices (devicesHome [alice]) = "Alice" ∧
    Action.setAway ∈ geoStep "" Presence.HOME [] :=
  ⟨(C6_geofencing.1 "" [alice] (by decide)).1,
   (C6_geofencing.1 "" [alice] (by decide)).2,
   by decide,
   C6_geofencing.2.1 "" [] (by decide)⟩

/-- C7 counterexample.  Two remote-response sequences that agree on the
tick's first `get_state` response produce different action lists, because
the engine re-reads the zone state on later field accesses: per-zone
evaluation is not a function of a single per-tick snapshot. -/
theorem C7_reread_counterexample :
    gMix 0 = gConst 0 ∧
    evalZoneO srcConfig 1 "Salon" gMix false [] ≠
      evalZoneO srcConfig 1 "Salon" gConst false [] :=
  ⟨rfl, by decide⟩

/-- C7 (amended): per-zone evaluation re-reads the zone state from the
remote at each access, so it is a function of the whole response sequence;
whenever the zone state is unchanged for the duration of the pass, it
coincides with the pure, deterministic single-snapshot evaluation. -/
theorem C7_single_snapshot_eval :
    ∀ (cfg : Config) (zid : Nat) (zname : String) (st : ZoneState)
      (owd : Bool) (reg : Registry),
      evalZoneO cfg zid zname (fun _ => st) owd reg =
        evalZone cfg zid zname st owd reg := by
  intro cfg zid zname st owd reg
  rw [evalZone_decomp]
  unfold evalZoneO
  by_cases h1 : st.manualControlTermination = true
  · by_cases h2 : st.power = Power.ON
    · by_cases ha : isAlive reg zname
      · simp [resumeStep, overheatActs, tempLimitO_const, h1, h2, ha]
      · cases ht : st.temperature with
        | none => simp [resumeStep, overheatActs, tempLimitO_const, h1, h2, ha, ht]
        | some v => simp [resumeStep, overheatActs, tempLimitO_const, h1, h2, ha, ht]
    · simp [resumeStep, overheatActs, tempLimitO_const, h1, h2]
  · simp [resumeStep, overheatActs, tempLimitO_const, h1]

/-- C8: the polling loop exits only on a `KeyboardInterrupt`; an exception
not mentioning a location problem is caught, logged, and followed by an
`ERROR_INTERVAL` sleep before the next fresh tick (at the shipped
configuration this holds for every exception, location ones included, the
two intervals being equal); at login, an `access_token` failure is fatal
while any other failure retries after `ERROR_INTERVAL`. -/
theorem C8_loop_error_handling :
    (∀ (cfg : Config) (outs : List TickOutcome) (sleeps : List ℚ)
        (msgs : List Msg) (c : Nat),
        engineRun cfg outs = (sleeps, msgs, some c) →
        TickOutcome.keyboardInterrupt ∈ outs) ∧
    (∀ (cfg : Config) (t : String), pyFind t "location" = false →
        handleTick cfg (TickOutcome.err t) =
          (StepKind.next cfg.ERROR_INTERVAL, [Msg.connectionRetry t])) ∧
    (∀ t : String, (handleTick srcConfig (TickOutcome.err t)).1 =
        StepKind.next srcConfig.ERROR_INTERVAL ∧
        (handleTick srcConfig (TickOutcome.err t)).2 ≠ []) ∧
    (∀ (cfg : Config) (lm t : String), pyFind t "access_token" = true →
        handleLogin cfg lm (LoginOutcome.exc t) =
          (LoginStep.exited 0, [Msg.loginError])) ∧
    (∀ (cfg : Config) (lm t : String), pyFind t "access_token" = false →
        handleLogin cfg lm (LoginOutcome.exc t) =
          (LoginStep.retryAfter cfg.ERROR_INTERVAL, [Msg.connectionRetry t])) := by
  refine ⟨?_, ?_, ?_, ?_, ?_⟩
  · intro cfg outs
    induction outs with
    | nil =>
      intro sleeps msgs c h
      simp [engineRun] at h
    | cons o rest ih =>
      intro sleeps msgs c h
      have hcase : o = TickOutcome.keyboardInterrupt ∨
          ∃ s ms, handleTick cfg o = (StepKind.next s, ms) := by
        cases o with
        | ok => exact Or.inr ⟨_, _, rfl⟩
        | keyboardInterrupt => exact Or.inl rfl
        | err t =>
          refine Or.inr ?_
          by_cases hp : pyFind t "location"
          · exact ⟨cfg.CHECKING_INTERVAL, [Msg.locationUnavailable],
              by simp [handleTick, hp]⟩
          · exact ⟨cfg.ERROR_INTERVAL, [Msg.connectionRetry t],
              by simp [handleTick, hp]⟩
      rcases hcase with ho | ⟨s, ms, heq⟩
      · rw [ho]
        exact List.mem_cons_self _ _
      · rcases hER : engineRun cfg rest with ⟨ss, rest2⟩
        rcases rest2 with ⟨ms2, e⟩
        unfold engineRun at h
        rw [heq, hER] at h
        simp only [Prod.mk.injEq] at h
        obtain ⟨-, -, he⟩ := h
        exact List.mem_cons_of_mem _ (ih ss ms2 c (by rw [hER, he]))
  · intro cfg t hp
    simp [handleTick, hp]
  · intro t
    by_cases hp : pyFind t "location"
    · simp [handleTick, hp, srcConfig]
    · simp [handleTick, hp, srcConfig]
  · intro cfg lm t hp
    simp [handleLogin, hp]
  · intro cfg lm t hp
    simp [handleLogin, hp]

/-- C8 witness: a run that only exits at an interrupt, a non-location
exception handled at `ERROR_INTERVAL`, a fatal credential failure, and a
retried connection failure. -/
theorem C8_loop_error_handling_witness :
    TickOutcome.keyboardInterrupt ∈
      [TickOutcome.ok, TickOutcome.keyboardInterrupt] ∧
    handleTick srcConfig (TickOutcome.err "boom") =
      (StepKind.next srcConfig.ERROR_INTERVAL, [Msg.connectionRetry "boom"]) ∧
    (handleTick srcConfig (TickOutcome.err "fail: location off")).1 =
      StepKind.next srcConfig.ERROR_INTERVAL ∧
    handleLogin srcConfig "" (LoginOutcome.exc "missing access_token") =
      (LoginStep.exited 0, [Msg.loginError]) ∧
    handleLogin srcConfig "" (LoginOutcome.exc "boom") =
      (LoginStep.retryAfter srcConfig.ERROR_INTERVAL, [Msg.connectionRetry "boom"]) :=
  ⟨C8_loop_error_handling.1 srcConfig [TickOutcome.ok, TickOutcome.keyboardInterrupt]
      [30] [Msg.interrupted] 0 (by decide),
   C8_loop_error_handling.2.1 srcConfig "boom" (by decide),
   (C8_loop_error_handling.2.2.1 "fail: location off").1,
   C8_loop_error_handling.2.2.2.1 srcConfig "" "missing access_token" (by decide),
   C8_loop_error_handling.2.2.2.2 srcConfig "" "boom" (by decide)⟩

/-- C9: the setpoint clamp uses strict `>` and `<`, so a zone whose
setpoint already sits exactly at `MAX_TEMP` (or at `MIN_TEMP`, the limits
being sanely ordered) triggers no overlay call at all: clamping is
idempotent at the boundary values. -/
theorem C9_clamp_strict_at_boundary :
    ∀ (cfg : Config) (zid : Nat) (zname : String) (st : ZoneState)
      (owd : Bool) (reg : Registry),
      cfg.MIN_TEMP ≤ cfg.MAX_TEMP →
      (st.temperature = some cfg.MAX_TEMP ∨ st.temperature = some cfg.MIN_TEMP) →
      ∀ (z : Nat) (m : OverlayMode) (temp : ℚ),
        Action.setZoneOverlay z m temp ∉ (evalZone cfg zid zname st owd reg).acts := by
  intro cfg zid zname st owd reg hmm ht z m temp hmem
  have h4 : tempLimitActs cfg zid zname st = [] := by
    unfold tempLimitActs
    rcases ht with ht | ht <;>
      simp [ht, lt_irrefl, not_lt.mpr hmm]
  have hsp : ∃ sp, st.temperature = some sp := by
    rcases ht with ht | ht <;> exact ⟨_, ht⟩
  obtain ⟨sp, hspec⟩ := hsp
  have hnr : (resumeStep cfg zid zname st reg).2.2 = false :=
    resumeStep_not_raised hspec
  have hdec := evalZone_decomp cfg zid zname st owd reg
  rw [hnr] at hdec
  simp only [Bool.false_eq_true, if_false] at hdec
  rw [hdec, h4] at hmem
  simp only [List.append_nil, List.mem_append] at hmem
  rcases hmem with (hmem | hmem) | hmem
  · exact absurd (mem_overheatActs hmem) (by simp)
  · rcases mem_openWindowActs hmem with h | h | h | h <;> simp at h
  · exact absurd (mem_resumeActs hmem) (by simp)

/-- C9 witness: a heating zone at exactly `MAX_TEMP = 25` produces no
`set_zone_overlay` call. -/
theorem C9_clamp_strict_at_boundary_witness :
    Action.setZoneOverlay 1 OverlayMode.MANUAL 25 ∉
      (evalZone srcConfig 1 "Living" stBoundary false []).acts :=
  C9_clamp_strict_at_boundary srcConfig 1 "Living" stBoundary false []
    (by decide) (Or.inl (by decide)) 1 OverlayMode.MANUAL 25

/-- C10 counterexample.  A fresh (non-duplicate) message arriving on a new
day with a failing log rotation makes `printm` itself raise — `rotate_log`
is invoked outside the `try` block — even though the log append succeeded,
refuting the claim that `printm` never propagates an exception to its
caller. -/
theorem C10_rotation_counterexample :
    (printm "a" "stamp" 2 ⟨"b", 1⟩ (Except.ok ()) false).raised = true := by
  decide

/-- C10 (amended): a duplicate consecutive message produces no console or
log output at all; a failure of the log append itself is caught, echoed to
stdout, and `printm` returns normally (provided no day-change rotation
fails in the same call); but when the day changed and the rotation fails,
the exception propagates out of `printm`. -/
theorem C10_printm_behavior :
    (∀ (msg stamp : String) (today : Nat) (st : NotifierState)
        (ar : Except String Unit) (rk : Bool),
        msg = st.lastMessage →
        printm msg stamp today st ar rk = ⟨[], [], st, false⟩) ∧
    (∀ (msg stamp : String) (today : Nat) (st : NotifierState) (e : String)
        (rk : Bool),
        msg ≠ st.lastMessage → (today ≠ st.dateLastMessage → rk = true) →
        (printm msg stamp today st (Except.error e) rk).raised = false ∧
        (stamp ++ " # " ++ e) ∈
          (printm msg stamp today st (Except.error e) rk).stdoutLines) ∧
    (∀ (msg stamp : String) (today : Nat) (st : NotifierState)
        (ar : Except String Unit),
        msg ≠ st.lastMessage → today ≠ st.dateLastMessage →
        (printm msg stamp today st ar false).raised = true) := by
  refine ⟨?_, ?_, ?_⟩
  · intro msg stamp today st ar rk he
    unfold printm
    rw [if_pos he]
  · intro msg stamp today st e rk hne hrot
    by_cases hd : today = st.dateLastMessage
    · unfold printm
      rw [if_neg hne]
      have hc : ¬(today ≠ st.dateLastMessage ∧ rk = false) := by
        rintro ⟨h, -⟩; exact h hd
      simp [SAVE_LOGS, hc]
    · have hrk := hrot hd
      unfold printm
      rw [if_neg hne]
      have hc : ¬(today ≠ st.dateLastMessage ∧ rk = false) := by
        rintro ⟨-, h⟩; rw [hrk] at h; exact absurd h (by decide)
      simp [SAVE_LOGS, hc]
  · intro msg stamp today st ar hne hd
    unfold printm
    rw [if_neg hne]
    simp [SAVE_LOGS, hd]

/-- C10 witness: the no-output duplicate case, the caught-and-echoed
append failure, and the propagating rotation failure, each on concrete
inputs. -/
theorem C10_printm_behavior_witness :
    printm "y" "stamp" 1 ⟨"y", 1⟩ (Except.ok ()) true = ⟨[], [], ⟨"y", 1⟩, false⟩ ∧
    (printm "x" "stamp" 1 ⟨"y", 1⟩ (Except.error "disk full") false).raised = false ∧
    ("stamp" ++ " # " ++ "disk full") ∈
      (printm "x" "stamp" 1 ⟨"y", 1⟩ (Except.error "disk full") false).stdoutLines ∧
    (printm "x" "stamp" 2 ⟨"y", 1⟩ (Except.ok ()) false).raised = true :=
  ⟨C10_printm_behavior.1 "y" "stamp" 1 ⟨"y", 1⟩ (Except.ok ()) true rfl,
   (C10_printm_behavior.2.1 "x" "stamp" 1 ⟨"y", 1⟩ "disk full" false
      (by decide) (fun h => absurd rfl h)).1,
   (C10_printm_behavior.2.1 "x" "stamp" 1 ⟨"y", 1⟩ "disk full" false
      (by decide) (fun h => absurd rfl h)).2,
   C10_printm_behavior.2.2 "x" "stamp" 2 ⟨"y", 1⟩ (Except.ok ())
     (by decide) (by decide)⟩

end TadoAA
